import Mathlib

/-!
Shallow embedding of the EDI parsing, detection, validation and extraction
core of the edi-compare-decode repository, together with proofs about the
claims of its specification.

Layout:
  - JavaScript string/number primitives (trim, split, includes, parseFloat)
  - namespace universalEDIParser : src/utils/universalEDIParser.ts and the
    static tables of src/utils/x12Formats.ts
  - namespace ediParser : the legacy tokenizer src/utils/ediParser.ts
  - namespace ediValidator : src/utils/ediValidator.ts
  - characterization lemmas and the claim theorems
-/

/-- ASCII part of the whitespace class recognised by JavaScript string
trimming and by parseFloat leading-whitespace skipping. -/
def isJSSpace (c : Char) : Bool :=
  c = ' ' || c = '\t' || c = '\n' || c = '\r' || c = '\x0b' || c = '\x0c'

/-- Model of JavaScript String.prototype.trim - drops leading and trailing
whitespace characters. -/
def jsTrim (s : String) : String :=
  String.mk (((s.data.dropWhile isJSSpace).reverse.dropWhile isJSSpace).reverse)

/-- Prepend a character to the first piece of a split result. -/
def consHead (c : Char) : List String → List String
  | [] => [String.mk [c]]
  | h :: t => String.mk (c :: h.data) :: t

/-- Model of splitting a string on the regular expression CR-optional LF
(the line split used by both tokenizers): a CRLF pair or a lone LF ends a
piece; a lone CR stays inside its piece. Always returns a nonempty list. -/
def splitReNewline : List Char → List String
  | [] => [("")]
  | '\r' :: '\n' :: rest => ("") :: splitReNewline rest
  | c :: rest =>
      if c = '\n' then ("") :: splitReNewline rest
      else consHead c (splitReNewline rest)

def jsSplitLines (s : String) : List String :=
  splitReNewline s.data

/-- Model of splitting a string on a character class: every occurrence of a
delimiter character ends a piece, empty pieces are preserved (as JavaScript
String.prototype.split with a character-class regex does). -/
def splitChars (delims : List Char) : List Char → List String
  | [] => [("")]
  | c :: rest =>
      if c ∈ delims then ("") :: splitChars delims rest
      else consHead c (splitChars delims rest)

/-- Delimiter class of the universal tokenizer: asterisk, tilde, caret. -/
def universalDelims : List Char := ['*', '~', '^']

/-- Delimiter class of the legacy tokenizer: asterisk, tilde. -/
def legacyDelims : List Char := ['*', '~']

def jsSplitOn (delims : List Char) (s : String) : List String :=
  splitChars delims s.data

/-- ASCII model of String.prototype.toLowerCase. -/
def jsToLower (s : String) : String :=
  String.mk (s.data.map Char.toLower)

/-- ASCII model of String.prototype.toUpperCase. -/
def jsToUpper (s : String) : String :=
  String.mk (s.data.map Char.toUpper)

/-- Contiguous-sublist test used to model String.prototype.includes. -/
def listInfixOf (pat : List Char) : List Char → Bool
  | [] => pat.isEmpty
  | c :: rest => pat.isPrefixOf (c :: rest) || listInfixOf pat rest

/-- Model of String.prototype.includes (substring containment). -/
def strIncludes (s pat : String) : Bool :=
  listInfixOf pat.data s.data

/-- The JavaScript idiom `x or-else d` on an optionally-present string:
undefined and the empty string (the falsy strings) fall back to the
default. -/
def jsOr (v : Option String) (d : String) : String :=
  match v with
  | none => d
  | some s => if s = ("") then d else s

/-- Model of String.prototype.padEnd with the default space filler. -/
def padEnd (s : String) (n : Nat) : String :=
  s ++ String.mk (List.replicate (n - s.length) ' ')

/-- Test for the regular expression anchored-n-digits (backslash-d repeated
n times between anchors). -/
def isNDigits (n : Nat) (s : String) : Bool :=
  s.length = n && s.data.all Char.isDigit

/-- Test for the anchored regular expression digits then an optional dot
with exactly two more digits (the BPR amount format check). -/
def isAmountFormat (s : String) : Bool :=
  let ds := s.data.takeWhile Char.isDigit
  let rest := s.data.dropWhile Char.isDigit
  match rest with
  | [] => !ds.isEmpty
  | '.' :: fs => !ds.isEmpty && fs.length = 2 && fs.all Char.isDigit
  | _ => false

/-- A JavaScript number as produced by parseFloat, abstracted over binary
floating point: decimal inputs are represented exactly as rationals.  The
claims settled here depend only on the NaN / zero / nonzero distinction,
which the abstraction preserves. -/
inductive JSNum where
  | nan : JSNum
  | posInf : JSNum
  | negInf : JSNum
  | num : ℚ → JSNum
deriving DecidableEq, Inhabited

/-- Numeric value of a digit list read in base ten. -/
def digitsVal (ds : List Char) : Nat :=
  ds.foldl (fun a c => a * 10 + (c.toNat - ('0').toNat)) 0

/-- Exponent digits after the sign of a parseFloat exponent part. -/
def parseExpTail (l : List Char) : Int :=
  match l with
  | '+' :: rest =>
      let ds := rest.takeWhile Char.isDigit
      if ds.isEmpty then 0 else (digitsVal ds : Int)
  | '-' :: rest =>
      let ds := rest.takeWhile Char.isDigit
      if ds.isEmpty then 0 else -(digitsVal ds : Int)
  | rest =>
      let ds := rest.takeWhile Char.isDigit
      if ds.isEmpty then 0 else (digitsVal ds : Int)

/-- Optional exponent part of a parseFloat literal; contributes zero when
the exponent marker is absent or not followed by digits. -/
def parseExp (l : List Char) : Int :=
  match l with
  | 'e' :: rest => parseExpTail rest
  | 'E' :: rest => parseExpTail rest
  | _ => 0

/-- Exact rational value of a signed decimal literal with integer digits
ds, fraction digits fs and decimal exponent e: the scaled integer mantissa
times ten to the power e minus the fraction length. -/
def decValue (neg : Bool) (ds fs : List Char) (e : Int) : ℚ :=
  let m : Int := (digitsVal ds * 10 ^ fs.length + digitsVal fs : Nat)
  let m : Int := if neg then -m else m
  let scale : Int := e - fs.length
  if 0 ≤ scale then ((m * 10 ^ scale.toNat : Int) : ℚ)
  else (m : ℚ) / ((10 : ℚ) ^ (-scale).toNat)

/-- Assemble the value of a parsed decimal literal. -/
def mkJSNum (neg : Bool) (ds fs : List Char) (e : Int) : JSNum :=
  JSNum.num (decValue neg ds fs e)

/-- Body of parseFloat after sign handling: an Infinity literal, or integer
digits, an optional fraction, and an optional exponent; NaN when no digit
was consumed. -/
def parseFloatBody (neg : Bool) (l : List Char) : JSNum :=
  if ("Infinity").data.isPrefixOf l then
    if neg then JSNum.negInf else JSNum.posInf
  else
    let ds := l.takeWhile Char.isDigit
    let r1 := l.dropWhile Char.isDigit
    match r1 with
    | '.' :: r2 =>
        let fs := r2.takeWhile Char.isDigit
        let r3 := r2.dropWhile Char.isDigit
        if ds.isEmpty && fs.isEmpty then JSNum.nan
        else mkJSNum neg ds fs (parseExp r3)
    | _ =>
        if ds.isEmpty then JSNum.nan else mkJSNum neg ds [] (parseExp r1)

/-- Model of the global parseFloat: skip leading whitespace, read an
optional sign, then the longest valid decimal-literal prefix; NaN when no
valid prefix exists. -/
def jsParseFloat (s : String) : JSNum :=
  let l := s.data.dropWhile isJSSpace
  match l with
  | '+' :: rest => parseFloatBody false rest
  | '-' :: rest => parseFloatBody true rest
  | rest => parseFloatBody false rest

namespace universalEDIParser

/-! Static tables from src/utils/x12Formats.ts. -/

/-- One entry of the X12_FORMATS table. -/
structure X12Format where
  name : String
  description : String
  category : String
  requiredSegments : List String
  businessContext : String
deriving DecidableEq

/-- The X12_FORMATS table (keys in source order). -/
def X12_FORMATS : List (String × X12Format) :=
  [ ("834", { name := "Benefit Enrollment and Maintenance",
              description := "Member enrollment, changes, and terminations",
              category := "healthcare",
              requiredSegments := [("ISA"), ("GS"), ("ST"), ("BGN"), ("N1"), ("INS"), ("NM1"), ("SE"), ("GE"), ("IEA")],
              businessContext := "enrollment" }),
    ("820", { name := "Payment Order/Remittance Advice",
              description := "Premium payments and remittance information",
              category := "healthcare",
              requiredSegments := [("ISA"), ("GS"), ("ST"), ("BPR"), ("N1"), ("SE"), ("GE"), ("IEA")],
              businessContext := "payment" }),
    ("837", { name := "Health Care Claim",
              description := "Professional, institutional, and dental claims",
              category := "healthcare",
              requiredSegments := [("ISA"), ("GS"), ("ST"), ("BHT"), ("NM1"), ("CLM"), ("SE"), ("GE"), ("IEA")],
              businessContext := "claims" }),
    ("835", { name := "Health Care Claim Payment/Advice",
              description := "Payment and remittance advice for claims",
              category := "healthcare",
              requiredSegments := [("ISA"), ("GS"), ("ST"), ("BPR"), ("N1"), ("CLP"), ("SE"), ("GE"), ("IEA")],
              businessContext := "payment" }),
    ("270", { name := "Eligibility/Benefit Inquiry",
              description := "Request for member eligibility and benefits",
              category := "healthcare",
              requiredSegments := [("ISA"), ("GS"), ("ST"), ("BHT"), ("HL"), ("NM1"), ("SE"), ("GE"), ("IEA")],
              businessContext := "eligibility" }),
    ("271", { name := "Eligibility/Benefit Response",
              description := "Response to eligibility and benefit inquiries",
              category := "healthcare",
              requiredSegments := [("ISA"), ("GS"), ("ST"), ("BHT"), ("HL"), ("NM1"), ("EB"), ("SE"), ("GE"), ("IEA")],
              businessContext := "eligibility" }),
    ("278", { name := "Health Care Services Review",
              description := "Prior authorization requests and responses",
              category := "healthcare",
              requiredSegments := [("ISA"), ("GS"), ("ST"), ("BHT"), ("HL"), ("NM1"), ("SE"), ("GE"), ("IEA")],
              businessContext := "authorization" }),
    ("999", { name := "Implementation Acknowledgment",
              description := "Functional acknowledgment for received transactions",
              category := "healthcare",
              requiredSegments := [("ISA"), ("GS"), ("ST"), ("AK1"), ("AK9"), ("SE"), ("GE"), ("IEA")],
              businessContext := "acknowledgment" }),
    ("850", { name := "Purchase Order",
              description := "Electronic purchase orders",
              category := "supply_chain",
              requiredSegments := [("ISA"), ("GS"), ("ST"), ("BEG"), ("N1"), ("PO1"), ("SE"), ("GE"), ("IEA")],
              businessContext := "procurement" }),
    ("855", { name := "Purchase Order Acknowledgment",
              description := "Acknowledgment of purchase orders",
              category := "supply_chain",
              requiredSegments := [("ISA"), ("GS"), ("ST"), ("BAK"), ("N1"), ("PO1"), ("ACK"), ("SE"), ("GE"), ("IEA")],
              businessContext := "procurement" }),
    ("856", { name := "Ship Notice/Manifest",
              description := "Advance shipping notifications",
              category := "supply_chain",
              requiredSegments := [("ISA"), ("GS"), ("ST"), ("BSN"), ("HL"), ("TD1"), ("SE"), ("GE"), ("IEA")],
              businessContext := "shipping" }),
    ("810", { name := "Invoice",
              description := "Electronic invoices",
              category := "financial",
              requiredSegments := [("ISA"), ("GS"), ("ST"), ("BIG"), ("N1"), ("IT1"), ("SE"), ("GE"), ("IEA")],
              businessContext := "billing" }) ]

/-- One entry of the PAYER_DATABASE table.  The specialRequirements and
contactInfo blobs of the source are configuration data never read by the
modelled core and are not represented. -/
structure PayerInfo where
  id : String
  name : String
deriving DecidableEq

/-- The PAYER_DATABASE table (keys in source order). -/
def PAYER_DATABASE : List (String × PayerInfo) :=
  [ ("AETNA", { id := "AETNA", name := "Aetna Inc." }),
    ("KAISER", { id := "KAISER", name := "Kaiser Foundation Health Plan" }),
    ("BCBS_AL", { id := "BCBS_AL", name := "Blue Cross Blue Shield of Alabama" }) ]

/-- The SEGMENT_DEFINITIONS table mapping a tag to its human label. -/
def SEGMENT_DEFINITIONS : List (String × String) :=
  [ ("ISA", "Interchange Control Header"),
    ("IEA", "Interchange Control Trailer"),
    ("GS", "Functional Group Header"),
    ("GE", "Functional Group Trailer"),
    ("ST", "Transaction Set Header"),
    ("SE", "Transaction Set Trailer"),
    ("BGN", "Beginning Segment"),
    ("BHT", "Beginning of Hierarchical Transaction"),
    ("INS", "Member Level Detail"),
    ("NM1", "Individual Name"),
    ("N1", "Entity Name"),
    ("N3", "Address Information"),
    ("N4", "Geographic Location"),
    ("DMG", "Demographic Information"),
    ("HD", "Health Coverage"),
    ("DTP", "Date/Time Period"),
    ("REF", "Reference Information"),
    ("PER", "Administrative Communications Contact"),
    ("EB", "Eligibility or Benefit Information"),
    ("CLP", "Claim Level Data"),
    ("BPR", "Financial Information"),
    ("TRN", "Trace"),
    ("QTY", "Quantity"),
    ("AMT", "Monetary Amount"),
    ("HL", "Hierarchical Level"),
    ("AK1", "Functional Group Response Header"),
    ("AK9", "Functional Group Response Trailer"),
    ("TA1", "Interchange Acknowledgment"),
    ("BEG", "Beginning Segment for Purchase Order"),
    ("BAK", "Beginning Segment for Purchase Order Acknowledgment"),
    ("BSN", "Beginning Segment for Ship Notice"),
    ("BIG", "Beginning Segment for Invoice"),
    ("PO1", "Baseline Item Data"),
    ("ACK", "Line Item Acknowledgment"),
    ("IT1", "Baseline Item Data (Invoice)"),
    ("TD1", "Carrier Details (Quantity and Weight)"),
    ("RMR", "Remittance Advice"),
    ("DTM", "Date/Time Reference"),
    ("ENT", "Entity") ]

/-! Data model of src/utils/universalEDIParser.ts. -/

/-- The EDISegment interface.  The optional errors field is modelled as a
list that is empty exactly when the source leaves it undefined. -/
structure EDISegment where
  tag : String
  elements : List String
  raw : String
  lineNumber : Nat
  definition : Option String
  isValid : Bool
  errors : List String
deriving DecidableEq, Inhabited

/-- The metadata record of an EDITransaction. -/
structure Metadata where
  sender : String
  receiver : String
  date : String
  controlNumber : String
  version : String
  testIndicator : String
deriving DecidableEq

def initMetadata : Metadata :=
  { sender := "", receiver := "", date := "", controlNumber := "",
    version := "", testIndicator := "" }

/-- The statistics record of an EDITransaction.  processingTime is wall
clock duration in the source and is abstracted as zero. -/
structure Statistics where
  totalSegments : Nat
  errorCount : Nat
  warningCount : Nat
  processingTime : Nat
deriving DecidableEq

/-- The payer attachment of an EDITransaction (the requirements blob of
the source is configuration data never read by the modelled core). -/
structure Payer where
  id : String
  name : String
deriving DecidableEq

/-- The EDITransaction interface. -/
structure EDITransaction where
  type : String
  segments : List EDISegment
  metadata : Metadata
  payer : Option Payer
  businessContext : Option String
  statistics : Statistics
deriving DecidableEq

/-! Format detection (detectEDIFormat). -/

/-- First match of the regular expression ST asterisk three-digits at the
head of the character list, if any. -/
def stHere : List Char → Option String
  | 'S' :: 'T' :: '*' :: d1 :: d2 :: d3 :: _ =>
      if d1.isDigit && d2.isDigit && d3.isDigit then
        some (String.mk [d1, d2, d3])
      else none
  | _ => none

/-- First match of the regular expression ST asterisk three-digits
anywhere in the line (leftmost match, as a JavaScript match call). -/
def stMatch : List Char → Option String
  | [] => none
  | c :: rest =>
      match stHere (c :: rest) with
      | some code => some code
      | none => stMatch rest

/-- The per-line loop of detectEDIFormat: the first line with an ST match
decides; a matched code outside the table falls through to later lines. -/
def detectLoop : List String → Option String
  | [] => none
  | l :: ls =>
      match stMatch l.data with
      | some formatCode =>
          if (X12_FORMATS.lookup formatCode).isSome then some formatCode
          else detectLoop ls
      | none => detectLoop ls

/-- detectEDIFormat from src/utils/universalEDIParser.ts: ST-segment scan
first, then the ordered lower-cased substring-pair fallbacks. -/
def detectEDIFormat (content : String) : String :=
  match detectLoop (jsSplitLines content) with
  | some code => code
  | none =>
    let contentStr := jsToLower content
    if strIncludes contentStr ("bgn*") && strIncludes contentStr ("ins*") then ("834")
    else if strIncludes contentStr ("bpr*") && strIncludes contentStr ("rmr*") then ("820")
    else if strIncludes contentStr ("bht*") && strIncludes contentStr ("clm*") then ("837")
    else if strIncludes contentStr ("bpr*") && strIncludes contentStr ("clp*") then ("835")
    else if strIncludes contentStr ("bht*") && strIncludes contentStr ("eb*") then ("271")
    else if strIncludes contentStr ("beg*") && strIncludes contentStr ("po1*") then ("850")
    else if strIncludes contentStr ("bak*") && strIncludes contentStr ("ack*") then ("855")
    else if strIncludes contentStr ("bsn*") && strIncludes contentStr ("td1*") then ("856")
    else if strIncludes contentStr ("big*") && strIncludes contentStr ("it1*") then ("810")
    else ("unknown")

/-! Payer identification (identifyPayer). -/

/-- Optional-chained includes: undefined short-circuits to false. -/
def optIncludes (v : Option String) (pat : String) : Bool :=
  match v with
  | none => false
  | some s => strIncludes s pat

/-- The N1 scan of identifyPayer: first N1 whose name element matches a
payer key or display name wins. -/
def scanN1 : List EDISegment → Option String
  | [] => none
  | sg :: rest =>
      match (sg.elements.get? 2).map jsToUpper with
      | some entityName =>
          if entityName ≠ ("") then
            match PAYER_DATABASE.find? (fun pr =>
                strIncludes entityName pr.1 ||
                strIncludes entityName (jsToUpper pr.2.name)) with
            | some pr => some pr.1
            | none => scanN1 rest
          else scanN1 rest
      | none => scanN1 rest

/-- identifyPayer from src/utils/universalEDIParser.ts: match the ISA
sender and receiver ids against the payer directory, then fall back to
scanning N1 entity names. -/
def identifyPayer (transaction : EDITransaction) : Option String :=
  let n1Segments := transaction.segments.filter (fun s => s.tag = ("N1"))
  let fromN1 := scanN1 n1Segments
  match transaction.segments.find? (fun s => s.tag = ("ISA")) with
  | some isaSegment =>
      let senderId := (isaSegment.elements.get? 6).map jsToUpper
      let receiverId := (isaSegment.elements.get? 8).map jsToUpper
      match PAYER_DATABASE.find? (fun pr =>
          optIncludes senderId pr.1 || optIncludes receiverId pr.1 ||
          optIncludes senderId (jsToUpper pr.2.name) ||
          optIncludes receiverId (jsToUpper pr.2.name)) with
      | some pr => some pr.1
      | none => fromN1
  | none => fromN1

/-! The universal tokenizer (parseEDIContent). -/

/-- The segment built from one retained line of input: split on the
delimiter class, take the first token as tag, annotate. -/
def mkSegment (index : Nat) (trimmedLine : String) : EDISegment :=
  let elements := jsSplitOn universalDelims trimmedLine
  let tag := jsOr elements.head? ("")
  let definition := SEGMENT_DEFINITIONS.lookup tag
  let errors :=
    if definition = none && !(tag = ("UNA") || tag = ("UNB") || tag = ("UNH")) then
      [("Unknown segment type: ") ++ tag]
    else []
  { tag := tag, elements := elements, raw := trimmedLine,
    lineNumber := index + 1, definition := definition,
    isValid := errors.length = 0, errors := errors }

/-- Accumulator of the per-line forEach loop of parseEDIContent. -/
structure ParseAcc where
  metadata : Metadata
  errorCount : Nat
  segments : List EDISegment
deriving DecidableEq

/-- One iteration of the forEach loop of parseEDIContent over an
(index, line) pair. -/
def parseStep (acc : ParseAcc) (p : Nat × String) : ParseAcc :=
  let trimmedLine := jsTrim p.2
  if trimmedLine = ("") then acc
  else
    let seg := mkSegment p.1 trimmedLine
    let metadata :=
      if seg.tag = ("ISA") && decide (16 ≤ seg.elements.length) then
        { sender := seg.elements.getD 6 (""),
          receiver := seg.elements.getD 8 (""),
          date := seg.elements.getD 9 (""),
          controlNumber := seg.elements.getD 13 (""),
          version := seg.elements.getD 12 (""),
          testIndicator := seg.elements.getD 15 ("") }
      else acc.metadata
    { metadata := metadata,
      errorCount := acc.errorCount + seg.errors.length,
      segments := acc.segments ++ [seg] }

/-- Attach the payer record when the identified payer is in the
directory, as the tail of parseEDIContent does. -/
def applyPayer (transaction : EDITransaction) : EDITransaction :=
  match identifyPayer transaction with
  | some payerId =>
      match PAYER_DATABASE.lookup payerId with
      | some info => { transaction with payer := some { id := payerId, name := info.name } }
      | none => transaction
  | none => transaction

/-- Attach the business context for a known format, as the tail of
parseEDIContent does. -/
def applyBusinessContext (transaction : EDITransaction) : EDITransaction :=
  if transaction.type ≠ ("unknown") then
    match X12_FORMATS.lookup transaction.type with
    | some fmt => { transaction with businessContext := some fmt.businessContext }
    | none => transaction
  else transaction

/-- parseEDIContent from src/utils/universalEDIParser.ts: split into
lines, keep the non-blank ones, tokenize each into a segment while
accumulating metadata and the error count, then attach payer and
business context. -/
def parseEDIContent (content : String) : EDITransaction :=
  let lines := (jsSplitLines content).filter (fun l => jsTrim l ≠ (""))
  let type := detectEDIFormat content
  let acc := lines.enum.foldl parseStep
    { metadata := initMetadata, errorCount := 0, segments := [] }
  let transaction : EDITransaction :=
    { type := type, segments := acc.segments, metadata := acc.metadata,
      payer := none, businessContext := none,
      statistics :=
        { totalSegments := acc.segments.length, errorCount := acc.errorCount,
          warningCount := 0, processingTime := 0 } }
  applyBusinessContext (applyPayer transaction)

/-! Business extraction (extract834Members, extract820Payments,
extractEntities) and the JSON conversion structures. -/

/-- The name sub-object of an 834 member (set by an NM1 segment with the
insured-individual qualifier). -/
structure MemberName where
  qualifier : Option String
  lastName : Option String
  firstName : Option String
  middleName : Option String
  suffix : Option String
  idQualifier : Option String
  id : Option String
deriving DecidableEq, Inhabited

/-- The demographics sub-object of an 834 member; starts as the empty
object when the member is created at its INS segment. -/
structure Demographics where
  dateQualifier : Option String
  birthDate : Option String
  genderCode : Option String
  maritalStatus : Option String
  raceEthnicity : Option String
deriving DecidableEq, Inhabited

def emptyDemographics : Demographics :=
  { dateQualifier := none, birthDate := none, genderCode := none,
    maritalStatus := none, raceEthnicity := none }

/-- One health-coverage entry of an 834 member (from an HD segment). -/
structure HealthCoverage where
  maintenanceTypeCode : Option String
  maintenanceReasonCode : Option String
  insuranceLineCode : Option String
  planCoverageDescription : Option String
  coverageLevelCode : Option String
deriving DecidableEq

/-- An 834 member entity as accumulated by extract834Members. -/
structure Member where
  memberLevelCode : Option String
  relationshipCode : Option String
  maintenanceTypeCode : Option String
  maintenanceReasonCode : Option String
  benefitStatusCode : Option String
  name : Option MemberName
  demographics : Demographics
  healthCoverage : List HealthCoverage
  dates : List String
deriving DecidableEq, Inhabited

/-- The member object created at an INS segment. -/
def newMember (e : List String) : Member :=
  { memberLevelCode := e.get? 1, relationshipCode := e.get? 2,
    maintenanceTypeCode := e.get? 3, maintenanceReasonCode := e.get? 4,
    benefitStatusCode := e.get? 5, name := none,
    demographics := emptyDemographics, healthCoverage := [], dates := [] }

/-- The forward scan of extract834Members with its current-member slot. -/
def extract834Go : List EDISegment → List Member → Option Member → List Member
  | [], acc, cur =>
      (match cur with
       | some m => acc ++ [m]
       | none => acc)
  | sg :: rest, acc, cur =>
      if sg.tag = ("INS") then
        let acc := match cur with
          | some m => acc ++ [m]
          | none => acc
        extract834Go rest acc (some (newMember sg.elements))
      else if sg.tag = ("NM1") then
        match cur with
        | some m =>
            if sg.elements.get? 1 = some ("IL") then
              extract834Go rest acc (some { m with name := some (
                { qualifier := sg.elements.get? 1,
                  lastName := sg.elements.get? 3,
                  firstName := sg.elements.get? 4,
                  middleName := sg.elements.get? 5,
                  suffix := sg.elements.get? 7,
                  idQualifier := sg.elements.get? 8,
                  id := sg.elements.get? 9 }) })
            else extract834Go rest acc cur
        | none => extract834Go rest acc cur
      else if sg.tag = ("DMG") then
        match cur with
        | some m =>
            extract834Go rest acc (some { m with demographics :=
              { dateQualifier := sg.elements.get? 1,
                birthDate := sg.elements.get? 2,
                genderCode := sg.elements.get? 3,
                maritalStatus := sg.elements.get? 4,
                raceEthnicity := sg.elements.get? 5 } })
        | none => extract834Go rest acc cur
      else if sg.tag = ("HD") then
        match cur with
        | some m =>
            extract834Go rest acc (some { m with healthCoverage :=
              m.healthCoverage ++
              [({ maintenanceTypeCode := sg.elements.get? 1,
                  maintenanceReasonCode := sg.elements.get? 2,
                  insuranceLineCode := sg.elements.get? 3,
                  planCoverageDescription := sg.elements.get? 4,
                  coverageLevelCode := sg.elements.get? 5 } : HealthCoverage)] })
        | none => extract834Go rest acc cur
      else extract834Go rest acc cur

/-- extract834Members from src/utils/universalEDIParser.ts. -/
def extract834Members (segments : List EDISegment) : List Member :=
  extract834Go segments [] none

/-- One remittance detail of an 820 payment (from an RMR segment). -/
structure RemittanceDetail where
  referenceQualifier : Option String
  memberGroupNumber : Option String
  remittanceAmount : JSNum
  adjustmentAmount : JSNum
deriving DecidableEq, Inhabited

/-- An 820 payment entity as accumulated by extract820Payments. -/
structure Payment where
  transactionHandlingCode : Option String
  monetaryAmount : JSNum
  creditDebitFlag : Option String
  paymentMethodCode : Option String
  paymentFormatCode : Option String
  originatingCompanyId : Option String
  originatingCompanySupplementalCode : Option String
  receivingCompanyId : Option String
  receivingCompanySupplementalCode : Option String
  effectiveEntryDate : Option String
  remittanceDetails : List RemittanceDetail
deriving DecidableEq, Inhabited

/-- The payment object created at a BPR segment. -/
def newPayment (e : List String) : Payment :=
  { transactionHandlingCode := e.get? 1,
    monetaryAmount := jsParseFloat (jsOr (e.get? 2) ("0")),
    creditDebitFlag := e.get? 3,
    paymentMethodCode := e.get? 4,
    paymentFormatCode := e.get? 5,
    originatingCompanyId := e.get? 7,
    originatingCompanySupplementalCode := e.get? 8,
    receivingCompanyId := e.get? 10,
    receivingCompanySupplementalCode := e.get? 11,
    effectiveEntryDate := e.get? 16,
    remittanceDetails := [] }

/-- The remittance detail built from an RMR segment. -/
def newRemittance (e : List String) : RemittanceDetail :=
  { referenceQualifier := e.get? 1,
    memberGroupNumber := e.get? 2,
    remittanceAmount := jsParseFloat (jsOr (e.get? 3) ("0")),
    adjustmentAmount := jsParseFloat (jsOr (e.get? 4) ("0")) }

/-- The forward scan of extract820Payments with its current-payment slot. -/
def extract820Go : List EDISegment → List Payment → Option Payment → List Payment
  | [], acc, cur =>
      (match cur with
       | some p => acc ++ [p]
       | none => acc)
  | sg :: rest, acc, cur =>
      if sg.tag = ("BPR") then
        let acc := match cur with
          | some p => acc ++ [p]
          | none => acc
        extract820Go rest acc (some (newPayment sg.elements))
      else if sg.tag = ("RMR") then
        match cur with
        | some p =>
            extract820Go rest acc (some { p with remittanceDetails :=
              p.remittanceDetails ++ [newRemittance sg.elements] })
        | none => extract820Go rest acc cur
      else extract820Go rest acc cur

/-- extract820Payments from src/utils/universalEDIParser.ts. -/
def extract820Payments (segments : List EDISegment) : List Payment :=
  extract820Go segments [] none

/-- extract837Claims: a stub returning the empty list in the source. -/
def extract837Claims (_segments : List EDISegment) : List Unit := []

/-- extract835Payments: a stub returning the empty list in the source. -/
def extract835Payments (_segments : List EDISegment) : List Payment := []

/-- An entity extracted from an N1 segment by extractEntities. -/
structure Entity where
  entityQualifier : Option String
  entityName : Option String
  idQualifier : Option String
  id : Option String
  address : Option String
  contacts : List String
deriving DecidableEq

/-- extractEntities from src/utils/universalEDIParser.ts. -/
def extractEntities (segments : List EDISegment) : List Entity :=
  (segments.filter (fun s => s.tag = ("N1"))).map (fun segment =>
    { entityQualifier := segment.elements.get? 1,
      entityName := segment.elements.get? 2,
      idQualifier := segment.elements.get? 3,
      id := segment.elements.get? 4,
      address := none, contacts := [] })

/-- The interchangeControl header object of a conversion result.  The
source initialises it to the empty object (every field undefined) and
fills it from the ISA segment when one is present; an object is always
truthy, so downstream truthiness tests on it always pass. -/
structure InterchangeControl where
  authorizationQualifier : Option String
  authorizationInformation : Option String
  securityQualifier : Option String
  securityInformation : Option String
  senderQualifier : Option String
  senderId : Option String
  receiverQualifier : Option String
  receiverId : Option String
  interchangeDate : Option String
  interchangeTime : Option String
  controlStandards : Option String
  controlVersion : Option String
  controlNumber : Option String
  acknowledgmentRequested : Option String
  testIndicator : Option String
deriving DecidableEq

def emptyInterchangeControl : InterchangeControl :=
  { authorizationQualifier := none, authorizationInformation := none,
    securityQualifier := none, securityInformation := none,
    senderQualifier := none, senderId := none,
    receiverQualifier := none, receiverId := none,
    interchangeDate := none, interchangeTime := none,
    controlStandards := none, controlVersion := none,
    controlNumber := none, acknowledgmentRequested := none,
    testIndicator := none }

/-- The functionalGroup header object of a conversion result. -/
structure FunctionalGroup where
  functionalCode : Option String
  applicationSender : Option String
  applicationReceiver : Option String
  date : Option String
  time : Option String
  groupControlNumber : Option String
  responsibleAgency : Option String
  version : Option String
deriving DecidableEq

def emptyFunctionalGroup : FunctionalGroup :=
  { functionalCode := none, applicationSender := none,
    applicationReceiver := none, date := none, time := none,
    groupControlNumber := none, responsibleAgency := none, version := none }

/-- The transactionSet header object of a conversion result. -/
structure TransactionSet where
  transactionSetIdentifier : Option String
  transactionSetControlNumber : Option String
deriving DecidableEq

def emptyTransactionSet : TransactionSet :=
  { transactionSetIdentifier := none, transactionSetControlNumber := none }

structure JSONHeader where
  interchangeControl : InterchangeControl
  functionalGroup : FunctionalGroup
  transactionSet : TransactionSet
deriving DecidableEq

structure JSONData where
  entities : List Entity
  members : List Member
  payments : List Payment
  claims : List Unit
deriving DecidableEq

/-- The metadata of a conversion result.  conversionTimestamp is a wall
clock reading in the source and is abstracted as the empty string. -/
structure JSONMetadata where
  originalFormat : String
  conversionTimestamp : String
  statistics : Statistics
deriving DecidableEq

structure JSONConversionResult where
  header : JSONHeader
  data : JSONData
  metadata : JSONMetadata
deriving DecidableEq

/-- convertEDIToJSON from src/utils/universalEDIParser.ts: positional
header mapping from the ISA, GS and ST segments plus the format-specific
entity extraction dispatch. -/
def convertEDIToJSON (transaction : EDITransaction) : JSONConversionResult :=
  let interchangeControl :=
    match transaction.segments.find? (fun s => s.tag = ("ISA")) with
    | some isaSegment =>
        { authorizationQualifier := isaSegment.elements.get? 1,
          authorizationInformation := isaSegment.elements.get? 2,
          securityQualifier := isaSegment.elements.get? 3,
          securityInformation := isaSegment.elements.get? 4,
          senderQualifier := isaSegment.elements.get? 5,
          senderId := isaSegment.elements.get? 6,
          receiverQualifier := isaSegment.elements.get? 7,
          receiverId := isaSegment.elements.get? 8,
          interchangeDate := isaSegment.elements.get? 9,
          interchangeTime := isaSegment.elements.get? 10,
          controlStandards := isaSegment.elements.get? 11,
          controlVersion := isaSegment.elements.get? 12,
          controlNumber := isaSegment.elements.get? 13,
          acknowledgmentRequested := isaSegment.elements.get? 14,
          testIndicator := isaSegment.elements.get? 15 }
    | none => emptyInterchangeControl
  let functionalGroup :=
    match transaction.segments.find? (fun s => s.tag = ("GS")) with
    | some gsSegment =>
        { functionalCode := gsSegment.elements.get? 1,
          applicationSender := gsSegment.elements.get? 2,
          applicationReceiver := gsSegment.elements.get? 3,
          date := gsSegment.elements.get? 4,
          time := gsSegment.elements.get? 5,
          groupControlNumber := gsSegment.elements.get? 6,
          responsibleAgency := gsSegment.elements.get? 7,
          version := gsSegment.elements.get? 8 }
    | none => emptyFunctionalGroup
  let transactionSet :=
    match transaction.segments.find? (fun s => s.tag = ("ST")) with
    | some stSegment =>
        { transactionSetIdentifier := stSegment.elements.get? 1,
          transactionSetControlNumber := stSegment.elements.get? 2 }
    | none => emptyTransactionSet
  let members :=
    if transaction.type = ("834") then extract834Members transaction.segments else []
  let payments :=
    if transaction.type = ("820") then extract820Payments transaction.segments
    else if transaction.type = ("835") then extract835Payments transaction.segments
    else []
  let claims :=
    if transaction.type = ("837") then extract837Claims transaction.segments else []
  { header :=
      { interchangeControl := interchangeControl,
        functionalGroup := functionalGroup,
        transactionSet := transactionSet },
    data :=
      { entities := extractEntities transaction.segments,
        members := members, payments := payments, claims := claims },
    metadata :=
      { originalFormat := transaction.type, conversionTimestamp := "",
        statistics := transaction.statistics } }

/-- Decimal digits of the fractional part of a nonnegative rational, with
fuel (terminates early when the remainder reaches zero). -/
def fracDigits : Nat → ℚ → List Char
  | 0, _ => []
  | fuel + 1, r =>
      if r = 0 then []
      else
        let r10 := r * 10
        let d := r10.floor.toNat
        Char.ofNat (d + ('0').toNat) :: fracDigits fuel (r10 - r10.floor)

/-- Rendering of a JavaScript number into a string, used by the template
literals of the 820 reconstruction.  Exponential notation for very large
or tiny magnitudes is not modelled; no modelled input reaches it. -/
def jsNumToString : JSNum → String
  | JSNum.nan => ("NaN")
  | JSNum.posInf => ("Infinity")
  | JSNum.negInf => ("-Infinity")
  | JSNum.num q =>
      let a := if q < 0 then -q else q
      let ip := toString a.floor.toNat
      let frac := a - a.floor
      let fracStr :=
        if frac = 0 then ("") else ("." ) ++ String.mk (fracDigits 64 frac)
      (if q < 0 then ("-") else ("")) ++ ip ++ fracStr

/-- The JavaScript idiom `n or-else d` on a number: NaN and zero are
falsy and fall back to the default string, every other value prints. -/
def jsNumOr (v : JSNum) (d : String) : String :=
  match v with
  | JSNum.nan => d
  | JSNum.posInf => ("Infinity")
  | JSNum.negInf => ("-Infinity")
  | JSNum.num q => if q = 0 then d else jsNumToString (JSNum.num q)

/-- The per-member segment lines of reconstruct834Segments. -/
def memberLines (member : Member) : List String :=
  [("INS*") ++ jsOr member.memberLevelCode ("Y") ++ ("*") ++
    jsOr member.relationshipCode ("18") ++ ("*") ++
    jsOr member.maintenanceTypeCode ("030") ++ ("*") ++
    jsOr member.maintenanceReasonCode ("AI") ++ ("*") ++
    jsOr member.benefitStatusCode ("A") ++ ("***AC~")] ++
  (match member.name with
   | some nm =>
       [("NM1*IL*1*") ++ jsOr nm.lastName ("") ++ ("*") ++
         jsOr nm.firstName ("") ++ ("*") ++ jsOr nm.middleName ("") ++
         ("**34*") ++ jsOr nm.id ("") ++ ("~")]
   | none => []) ++
  [("DMG*D8*") ++ jsOr member.demographics.birthDate ("") ++ ("*") ++
    jsOr member.demographics.genderCode ("") ++ ("~")] ++
  (member.healthCoverage.map (fun coverage =>
    ("HD*") ++ jsOr coverage.maintenanceTypeCode ("030") ++ ("**") ++
    jsOr coverage.insuranceLineCode ("HLT") ++ ("*") ++
    jsOr coverage.planCoverageDescription ("") ++ ("*") ++
    jsOr coverage.coverageLevelCode ("EMP") ++ ("~")))

/-- reconstruct834Segments from src/utils/universalEDIParser.ts.  The
demographics object of an extracted member is always present (truthy), so
the DMG line is always emitted. -/
def reconstruct834Segments (members : List Member) : List String :=
  ("BGN*00*ABC123*20241208*1200*ET*Original~") :: (members.map memberLines).flatten

/-- The per-payment segment lines of reconstruct820Segments. -/
def paymentLines (payment : Payment) : List String :=
  [("BPR*") ++ jsOr payment.transactionHandlingCode ("I") ++ ("*") ++
    jsNumOr payment.monetaryAmount ("0") ++ ("*") ++
    jsOr payment.creditDebitFlag ("C") ++ ("*") ++
    jsOr payment.paymentMethodCode ("ACH") ++ ("*") ++
    jsOr payment.paymentFormatCode ("CCP") ++ ("**") ++
    jsOr payment.originatingCompanyId ("") ++ ("*") ++
    jsOr payment.originatingCompanySupplementalCode ("") ++ ("**") ++
    jsOr payment.receivingCompanyId ("") ++ ("*") ++
    jsOr payment.receivingCompanySupplementalCode ("") ++ ("*****") ++
    jsOr payment.effectiveEntryDate ("") ++ ("~")] ++
  (payment.remittanceDetails.map (fun remittance =>
    ("RMR*") ++ jsOr remittance.referenceQualifier ("PO") ++ ("*") ++
    jsOr remittance.memberGroupNumber ("") ++ ("*") ++
    jsNumOr remittance.remittanceAmount ("0") ++ ("*") ++
    jsNumOr remittance.adjustmentAmount ("0") ++ ("~")))

/-- reconstruct820Segments from src/utils/universalEDIParser.ts. -/
def reconstruct820Segments (payments : List Payment) : List String :=
  (payments.map paymentLines).flatten

/-- convertJSONToEDI from src/utils/universalEDIParser.ts.  The three
header objects are always truthy in the source, so the ISA, GS and ST
lines are always emitted; the SE count is recomputed from the number of
lines emitted so far. -/
def convertJSONToEDI (jsonData : JSONConversionResult) : String :=
  let isa := jsonData.header.interchangeControl
  let gs := jsonData.header.functionalGroup
  let st := jsonData.header.transactionSet
  let lines : List String :=
    [("ISA*") ++ jsOr isa.authorizationQualifier ("00") ++ ("*") ++
      jsOr isa.authorizationInformation ("          ") ++ ("*") ++
      jsOr isa.securityQualifier ("00") ++ ("*") ++
      jsOr isa.securityInformation ("          ") ++ ("*") ++
      jsOr isa.senderQualifier ("ZZ") ++ ("*") ++
      padEnd (jsOr isa.senderId ("")) 15 ++ ("*") ++
      jsOr isa.receiverQualifier ("ZZ") ++ ("*") ++
      padEnd (jsOr isa.receiverId ("")) 15 ++ ("*") ++
      jsOr isa.interchangeDate ("") ++ ("*") ++
      jsOr isa.interchangeTime ("") ++ ("*U*") ++
      jsOr isa.controlVersion ("00501") ++ ("*") ++
      jsOr isa.controlNumber ("000000001") ++ ("*") ++
      jsOr isa.acknowledgmentRequested ("0") ++ ("*") ++
      jsOr isa.testIndicator ("P") ++ ("*>")]
  let lines := lines ++
    [("GS*") ++ jsOr gs.functionalCode ("BE") ++ ("*") ++
      jsOr gs.applicationSender ("") ++ ("*") ++
      jsOr gs.applicationReceiver ("") ++ ("*") ++
      jsOr gs.date ("") ++ ("*") ++ jsOr gs.time ("") ++ ("*") ++
      jsOr gs.groupControlNumber ("1") ++ ("*") ++
      jsOr gs.responsibleAgency ("X") ++ ("*") ++
      jsOr gs.version ("005010X220A1") ++ ("~")]
  let lines := lines ++
    [("ST*") ++ jsOr st.transactionSetIdentifier ("834") ++ ("*") ++
      jsOr st.transactionSetControlNumber ("0001") ++ ("~")]
  let lines := lines ++
    (if jsonData.metadata.originalFormat = ("834") then
       reconstruct834Segments jsonData.data.members
     else if jsonData.metadata.originalFormat = ("820") then
       reconstruct820Segments jsonData.data.payments
     else [])
  let lines := lines ++
    [("SE*") ++ toString (lines.length + 1) ++ ("*") ++
      jsOr st.transactionSetControlNumber ("0001") ++ ("~")]
  let lines := lines ++
    [("GE*1*") ++ jsOr gs.groupControlNumber ("1") ++ ("~")]
  let lines := lines ++
    [("IEA*1*") ++ jsOr isa.controlNumber ("000000001") ++ ("~")]
  String.intercalate ("\n") lines

end universalEDIParser

namespace ediParser

/-! The legacy tokenizer src/utils/ediParser.ts (imported by the
validator). -/

/-- The legacy EDISegment type. -/
structure EDISegment where
  tag : String
  elements : List String
  raw : String
  lineNumber : Nat
deriving DecidableEq, Inhabited

/-- The legacy metadata record. -/
structure Metadata where
  sender : String
  receiver : String
  date : String
  controlNumber : String
deriving DecidableEq

def initMetadata : Metadata :=
  { sender := "", receiver := "", date := "", controlNumber := "" }

/-- The legacy EDITransaction type. -/
structure EDITransaction where
  type : String
  segments : List EDISegment
  metadata : Metadata
deriving DecidableEq

/-- detectEDIType from src/utils/ediParser.ts: first line containing an
ST-834 or ST-820 marker decides. -/
def detectLoop : List String → String
  | [] => ("unknown")
  | l :: ls =>
      if strIncludes l ("ST*834") || strIncludes l ("ST*834*") then ("834")
      else if strIncludes l ("ST*820") || strIncludes l ("ST*820*") then ("820")
      else detectLoop ls

def detectEDIType (content : String) : String :=
  detectLoop (jsSplitLines content)

/-- The legacy segment built from one retained line: split on asterisk or
tilde, first token is the tag. -/
def mkSegment (index : Nat) (trimmedLine : String) : EDISegment :=
  let elements := jsSplitOn legacyDelims trimmedLine
  let tag := jsOr elements.head? ("")
  { tag := tag, elements := elements, raw := trimmedLine, lineNumber := index + 1 }

/-- Accumulator of the legacy forEach loop. -/
structure ParseAcc where
  metadata : Metadata
  segments : List EDISegment
deriving DecidableEq

/-- One iteration of the legacy forEach loop. -/
def parseStep (acc : ParseAcc) (p : Nat × String) : ParseAcc :=
  let trimmedLine := jsTrim p.2
  if trimmedLine = ("") then acc
  else
    let seg := mkSegment p.1 trimmedLine
    let metadata :=
      if seg.tag = ("ISA") && decide (13 ≤ seg.elements.length) then
        { sender := seg.elements.getD 6 (""),
          receiver := seg.elements.getD 8 (""),
          date := seg.elements.getD 9 (""),
          controlNumber := seg.elements.getD 13 ("") }
      else acc.metadata
    { metadata := metadata, segments := acc.segments ++ [seg] }

/-- parseEDIContent from src/utils/ediParser.ts. -/
def parseEDIContent (content : String) : EDITransaction :=
  let lines := (jsSplitLines content).filter (fun l => jsTrim l ≠ (""))
  let type := detectEDIType content
  let acc := lines.enum.foldl parseStep
    { metadata := initMetadata, segments := [] }
  { type := type, segments := acc.segments, metadata := acc.metadata }

end ediParser

namespace ediValidator

/-! The structural validator src/utils/ediValidator.ts.  The source
accumulates issues by pushing into a mutable array; this embedding returns
each pass's issues as a list, concatenated in push order. -/

/-- The EDIError record.  The severity lives in the field named type
(critical, warning or info); segment is the referenced segment, undefined
when the transaction has no segments. -/
structure EDIError where
  id : String
  type : String
  segment : Option ediParser.EDISegment
  message : String
  description : String
  suggestion : String
deriving DecidableEq

/-- The ValidationResult record. -/
structure ValidationResult where
  isValid : Bool
  errors : List EDIError
  warnings : List EDIError
  totalIssues : Nat
deriving DecidableEq

/-- Required segments for 834 transactions. -/
def REQUIRED_834_SEGMENTS : List String :=
  [("ISA"), ("GS"), ("ST"), ("BGN"), ("N1"), ("INS"), ("NM1"), ("SE"), ("GE"), ("IEA")]

/-- Required segments for 820 transactions. -/
def REQUIRED_820_SEGMENTS : List String :=
  [("ISA"), ("GS"), ("ST"), ("BPR"), ("N1"), ("SE"), ("GE"), ("IEA")]

/-- validateRequiredSegments: the 834 list for type 834, the 820 list for
every other type (unknown included); one critical issue per missing tag,
anchored at the first segment. -/
def validateRequiredSegments (transaction : ediParser.EDITransaction) : List EDIError :=
  let requiredSegments :=
    if transaction.type = ("834") then REQUIRED_834_SEGMENTS else REQUIRED_820_SEGMENTS
  let presentSegments := transaction.segments.map (fun s => s.tag)
  requiredSegments.filterMap (fun required =>
    if required ∈ presentSegments then none
    else some
      { id := ("missing-") ++ required,
        type := ("critical"),
        segment := transaction.segments.get? 0,
        message := ("Missing required segment: ") ++ required,
        description := ("EDI ") ++ transaction.type ++
          (" transactions must include a ") ++ required ++ (" segment"),
        suggestion := ("Add the ") ++ required ++
          (" segment in the correct position") })

/-- validateSegmentSequence: ISA must open and IEA must close the
segment sequence. -/
def validateSegmentSequence (transaction : ediParser.EDITransaction) : List EDIError :=
  let segments := transaction.segments
  (match segments.head? with
   | some s0 =>
       if s0.tag ≠ ("ISA") then
         [{ id := ("isa-not-first"), type := ("critical"), segment := some s0,
            message := ("ISA segment must be first"),
            description := ("The Interchange Control Header (ISA) must be the first segment"),
            suggestion := ("Move the ISA segment to the beginning of the file") }]
       else []
   | none => []) ++
  (match segments.getLast? with
   | some sl =>
       if sl.tag ≠ ("IEA") then
         [{ id := ("iea-not-last"), type := ("critical"), segment := some sl,
            message := ("IEA segment must be last"),
            description := ("The Interchange Control Trailer (IEA) must be the last segment"),
            suggestion := ("Move the IEA segment to the end of the file") }]
       else []
   | none => [])

/-- Rendering of an optionally-present string inside a template literal
(undefined prints as the word undefined). -/
def optShow (v : Option String) : String :=
  match v with
  | some s => s
  | none => ("undefined")

/-- validateControlNumbers: when both ISA and IEA are present, element 13
of the ISA must equal element 2 of the IEA textually. -/
def validateControlNumbers (transaction : ediParser.EDITransaction) : List EDIError :=
  match transaction.segments.find? (fun s => s.tag = ("ISA")),
        transaction.segments.find? (fun s => s.tag = ("IEA")) with
  | some isaSegment, some ieaSegment =>
      let isaControlNumber := isaSegment.elements.get? 13
      let ieaControlNumber := ieaSegment.elements.get? 2
      if isaControlNumber ≠ ieaControlNumber then
        [{ id := ("control-number-mismatch"), type := ("critical"),
           segment := some ieaSegment,
           message := ("Control number mismatch"),
           description := ("ISA control number (") ++ optShow isaControlNumber ++
             (") doesn\x27t match IEA control number (") ++
             optShow ieaControlNumber ++ (")"),
           suggestion := ("Ensure both ISA and IEA segments have the same control number") }]
      else []
  | _, _ => []

/-- validateISAFormat: critical when fewer than 16 elements; warning when
the date element is present, nonempty and not six digits. -/
def validateISAFormat (segment : ediParser.EDISegment) : List EDIError :=
  (if segment.elements.length < 16 then
     [{ id := ("isa-insufficient-elements-") ++ toString segment.lineNumber,
        type := ("critical"), segment := some segment,
        message := ("ISA segment has insufficient elements"),
        description := ("ISA segment must have at least 16 elements"),
        suggestion := ("Check the ISA segment format and ensure all required elements are present") }]
   else []) ++
  (match segment.elements.get? 9 with
   | some date =>
       if date ≠ ("") && !isNDigits 6 date then
         [{ id := ("isa-invalid-date-") ++ toString segment.lineNumber,
            type := ("warning"), segment := some segment,
            message := ("Invalid date format in ISA segment"),
            description := ("Date \"") ++ date ++ ("\" should be in YYMMDD format"),
            suggestion := ("Use YYMMDD format for the interchange date") }]
       else []
   | none => [])

/-- validateDTPFormat: warning when fewer than 4 elements (and no further
check); warning when a D8-qualified date is present, nonempty and not
eight digits. -/
def validateDTPFormat (segment : ediParser.EDISegment) : List EDIError :=
  if segment.elements.length < 4 then
    [{ id := ("dtp-insufficient-elements-") ++ toString segment.lineNumber,
       type := ("warning"), segment := some segment,
       message := ("DTP segment has insufficient elements"),
       description := ("DTP segment should have at least 3 elements"),
       suggestion := ("Ensure qualifier, format, and date are provided") }]
  else
    let format := segment.elements.get? 2
    let date := segment.elements.get? 3
    if format = some ("D8") &&
       (match date with
        | some d => d ≠ ("") && !isNDigits 8 d
        | none => false) then
      [{ id := ("dtp-invalid-date-") ++ toString segment.lineNumber,
         type := ("warning"), segment := some segment,
         message := ("Invalid date format in DTP segment"),
         description := ("Date \"") ++ optShow date ++
           ("\" should be in CCYYMMDD format when format is D8"),
         suggestion := ("Use CCYYMMDD format for D8 date qualifier") }]
    else []

/-- validateDMGFormat: nothing when fewer than 4 elements; warnings for a
malformed birth date or an out-of-range gender code. -/
def validateDMGFormat (segment : ediParser.EDISegment) : List EDIError :=
  if segment.elements.length < 4 then []
  else
    let birthDate := segment.elements.get? 2
    let gender := segment.elements.get? 3
    (match birthDate with
     | some d =>
         if d ≠ ("") && !isNDigits 8 d then
           [{ id := ("dmg-invalid-birthdate-") ++ toString segment.lineNumber,
              type := ("warning"), segment := some segment,
              message := ("Invalid birth date format"),
              description := ("Birth date \"") ++ d ++ ("\" should be in CCYYMMDD format"),
              suggestion := ("Use CCYYMMDD format for birth dates") }]
         else []
     | none => []) ++
    (match gender with
     | some g =>
         if g ≠ ("") && !(g = ("M") || g = ("F") || g = ("U")) then
           [{ id := ("dmg-invalid-gender-") ++ toString segment.lineNumber,
              type := ("warning"), segment := some segment,
              message := ("Invalid gender code"),
              description := ("Gender code \"") ++ g ++ ("\" should be M, F, or U"),
              suggestion := ("Use M (Male), F (Female), or U (Unknown) for gender codes") }]
         else []
     | none => [])

/-- validateDataFormats: dispatch the per-segment format checks over the
segment sequence in order. -/
def validateDataFormats (transaction : ediParser.EDITransaction) : List EDIError :=
  (transaction.segments.map (fun segment =>
    if segment.tag = ("ISA") then validateISAFormat segment
    else if segment.tag = ("DTP") then validateDTPFormat segment
    else if segment.tag = ("DMG") then validateDMGFormat segment
    else [])).flatten

/-- The scan of validate834BusinessRules: an insured-individual NM1 more
than ten positions after the last INS (or with no preceding INS) is
possibly orphaned. -/
def orphanGo : List (Nat × ediParser.EDISegment) → Option Nat → List EDIError
  | [], _ => []
  | (index, segment) :: rest, lastINS =>
      if segment.tag = ("INS") then orphanGo rest (some index)
      else if segment.tag = ("NM1") && segment.elements.get? 1 = some ("IL") then
        (if (match lastINS with
             | none => true
             | some j => decide (10 < index - j)) then
           [{ id := ("orphaned-nm1-") ++ toString segment.lineNumber,
              type := ("warning"), segment := some segment,
              message := ("NM1 segment may be orphaned"),
              description := ("Individual NM1 segments should closely follow their corresponding INS segment"),
              suggestion := ("Ensure NM1*IL segments are properly associated with INS segments") }]
         else []) ++ orphanGo rest lastINS
      else orphanGo rest lastINS

def validate834BusinessRules (transaction : ediParser.EDITransaction) : List EDIError :=
  orphanGo transaction.segments.enum none

/-- validate820BusinessRules: at least one BPR segment is required
(critical), and each BPR amount must match the decimal pattern
(warning). -/
def validate820BusinessRules (transaction : ediParser.EDITransaction) : List EDIError :=
  let bprSegments := transaction.segments.filter (fun s => s.tag = ("BPR"))
  (if bprSegments.length = 0 then
     [{ id := ("missing-bpr"), type := ("critical"),
        segment := transaction.segments.get? 0,
        message := ("Missing BPR segment"),
        description := ("EDI 820 transactions must include at least one BPR (Financial Information) segment"),
        suggestion := ("Add a BPR segment with payment details") }]
   else []) ++
  (bprSegments.map (fun segment =>
    match segment.elements.get? 2 with
    | some amount =>
        if amount ≠ ("") && !isAmountFormat amount then
          [{ id := ("bpr-invalid-amount-") ++ toString segment.lineNumber,
             type := ("warning"), segment := some segment,
             message := ("Invalid payment amount format"),
             description := ("Amount \"") ++ amount ++
               ("\" should be in decimal format with up to 2 decimal places"),
             suggestion := ("Use decimal format like 1234.56 for payment amounts") }]
        else []
    | none => [])).flatten

/-- validateEDITransaction from src/utils/ediValidator.ts: run every pass,
split the issues into critical and warning, validity is the absence of
critical issues. -/
def validateEDITransaction (transaction : ediParser.EDITransaction) : ValidationResult :=
  let errors :=
    validateRequiredSegments transaction ++
    validateSegmentSequence transaction ++
    validateControlNumbers transaction ++
    validateDataFormats transaction ++
    (if transaction.type = ("834") then validate834BusinessRules transaction
     else if transaction.type = ("820") then validate820BusinessRules transaction
     else [])
  let warnings := errors.filter (fun e => e.type = ("warning"))
  let criticalErrors := errors.filter (fun e => e.type = ("critical"))
  { isValid := criticalErrors.length = 0,
    errors := criticalErrors,
    warnings := warnings,
    totalIssues := errors.length }

end ediValidator

/-! Characterization lemmas for the two tokenizers. -/

theorem consHead_ne_nil (c : Char) (l : List String) : consHead c l ≠ [] := by
  cases l <;> simp [consHead]

theorem splitChars_ne_nil (d : List Char) (l : List Char) : splitChars d l ≠ [] := by
  induction l with
  | nil => simp [splitChars]
  | cons c rest ih =>
      simp only [splitChars]
      split
      · simp
      · exact consHead_ne_nil c _

theorem jsOr_some_empty (s : String) : jsOr (some s) ("") = s := by
  by_cases h : s = ("") <;> simp [jsOr, h]

theorem enumFrom_get? {α : Type} : ∀ (ls : List α) (n i : Nat),
    (List.enumFrom n ls).get? i = (ls.get? i).map (fun l => (n + i, l)) := by
  intro ls
  induction ls with
  | nil => intro n i; simp
  | cons l rest ih =>
      intro n i
      cases i with
      | zero => simp [List.enumFrom]
      | succ j =>
          simp only [List.enumFrom, List.get?]
          rw [ih (n + 1) j]
          cases rest.get? j <;> simp [Nat.add_assoc, Nat.add_comm 1 j]

namespace universalEDIParser

theorem parseStep_segments (acc : ParseAcc) (i : Nat) (l : String)
    (h : jsTrim l ≠ ("")) :
    (parseStep acc (i, l)).segments = acc.segments ++ [mkSegment i (jsTrim l)] := by
  simp only [parseStep]
  rw [if_neg h]

theorem foldl_parseStep_segments : ∀ (ls : List String) (i : Nat) (acc : ParseAcc),
    (∀ l ∈ ls, jsTrim l ≠ ("")) →
    ((List.enumFrom i ls).foldl parseStep acc).segments =
      acc.segments ++ (List.enumFrom i ls).map (fun p => mkSegment p.1 (jsTrim p.2)) := by
  intro ls
  induction ls with
  | nil => intro i acc _; simp [List.enumFrom]
  | cons l rest ih =>
      intro i acc h
      simp only [List.enumFrom, List.foldl, List.map]
      rw [ih (i + 1) (parseStep acc (i, l)) (fun x hx => h x (List.mem_cons_of_mem _ hx))]
      rw [parseStep_segments acc i l (h l (List.mem_cons_self _ _))]
      simp

theorem applyPayer_segments (t : EDITransaction) : (applyPayer t).segments = t.segments := by
  simp only [applyPayer]
  split
  · split <;> rfl
  · rfl

theorem applyBusinessContext_segments (t : EDITransaction) :
    (applyBusinessContext t).segments = t.segments := by
  simp only [applyBusinessContext]
  split
  · split <;> rfl
  · rfl

/-- The segment list of the universal tokenizer is the per-retained-line
segment construction, indexed by position in the filtered line list. -/
theorem parseEDIContent_segments (content : String) :
    (parseEDIContent content).segments =
      (((jsSplitLines content).filter (fun l => jsTrim l ≠ (""))).enum).map
        (fun p => mkSegment p.1 (jsTrim p.2)) := by
  simp only [parseEDIContent]
  rw [applyBusinessContext_segments, applyPayer_segments]
  show ((List.enumFrom 0 _).foldl parseStep _).segments = _
  rw [foldl_parseStep_segments _ 0 _ (by
    intro l hl
    exact of_decide_eq_true (List.mem_filter.mp hl).2)]
  simp [List.enum]

end universalEDIParser

namespace ediParser

theorem legacy_parseStep_segments (acc : ParseAcc) (i : Nat) (l : String)
    (h : jsTrim l ≠ ("")) :
    (parseStep acc (i, l)).segments = acc.segments ++ [mkSegment i (jsTrim l)] := by
  simp only [parseStep]
  rw [if_neg h]

theorem legacy_foldl_segments : ∀ (ls : List String) (i : Nat) (acc : ParseAcc),
    (∀ l ∈ ls, jsTrim l ≠ ("")) →
    ((List.enumFrom i ls).foldl parseStep acc).segments =
      acc.segments ++ (List.enumFrom i ls).map (fun p => mkSegment p.1 (jsTrim p.2)) := by
  intro ls
  induction ls with
  | nil => intro i acc _; simp [List.enumFrom]
  | cons l rest ih =>
      intro i acc h
      simp only [List.enumFrom, List.foldl, List.map]
      rw [ih (i + 1) (parseStep acc (i, l)) (fun x hx => h x (List.mem_cons_of_mem _ hx))]
      rw [legacy_parseStep_segments acc i l (h l (List.mem_cons_self _ _))]
      simp

/-- The segment list of the legacy tokenizer is the per-retained-line
segment construction, indexed by position in the filtered line list. -/
theorem legacy_parse_segments (content : String) :
    (parseEDIContent content).segments =
      (((jsSplitLines content).filter (fun l => jsTrim l ≠ (""))).enum).map
        (fun p => mkSegment p.1 (jsTrim p.2)) := by
  simp only [parseEDIContent]
  show ((List.enumFrom 0 _).foldl parseStep _).segments = _
  rw [legacy_foldl_segments _ 0 _ (by
    intro l hl
    exact of_decide_eq_true (List.mem_filter.mp hl).2)]
  simp [List.enum]

end ediParser

/-- Count of a present option (the current-entity slot). -/
def optCount {α : Type} : Option α → Nat
  | none => 0
  | some _ => 1

namespace universalEDIParser

theorem mkSegment_elements (i : Nat) (s : String) :
    (mkSegment i s).elements = jsSplitOn universalDelims s := rfl

theorem mkSegment_raw (i : Nat) (s : String) : (mkSegment i s).raw = s := rfl

theorem mkSegment_lineNumber (i : Nat) (s : String) :
    (mkSegment i s).lineNumber = i + 1 := rfl

theorem mkSegment_tag (i : Nat) (s : String) :
    (mkSegment i s).tag = jsOr (jsSplitOn universalDelims s).head? ("") := rfl

theorem extract834Go_length : ∀ (segs : List EDISegment) (acc : List Member) (cur : Option Member),
    (extract834Go segs acc cur).length =
      acc.length + optCount cur + (segs.filter (fun s => s.tag = ("INS"))).length := by
  intro segs
  induction segs with
  | nil =>
      intro acc cur
      cases cur <;> simp [extract834Go, optCount]
  | cons sg rest ih =>
      intro acc cur
      simp only [extract834Go]
      by_cases h1 : sg.tag = ("INS")
      · rw [if_pos h1]
        cases cur <;>
          (simp [ih, optCount, List.filter_cons, h1]; omega)
      · rw [if_neg h1]
        by_cases h2 : sg.tag = ("NM1")
        · rw [if_pos h2]
          cases cur with
          | none => simp [ih, optCount, List.filter_cons, h1]
          | some m =>
              by_cases hIL : sg.elements[1]? = some ("IL")
              · simp [hIL, ih, optCount, List.filter_cons, h1]
              · simp [hIL, ih, optCount, List.filter_cons, h1]
        · rw [if_neg h2]
          by_cases h3 : sg.tag = ("DMG")
          · rw [if_pos h3]
            cases cur <;> simp [ih, optCount, List.filter_cons, h1]
          · rw [if_neg h3]
            by_cases h4 : sg.tag = ("HD")
            · rw [if_pos h4]
              cases cur <;> simp [ih, optCount, List.filter_cons, h1]
            · rw [if_neg h4]
              simp [ih, List.filter_cons, h1]

theorem extract820Go_length : ∀ (segs : List EDISegment) (acc : List Payment) (cur : Option Payment),
    (extract820Go segs acc cur).length =
      acc.length + optCount cur + (segs.filter (fun s => s.tag = ("BPR"))).length := by
  intro segs
  induction segs with
  | nil =>
      intro acc cur
      cases cur <;> simp [extract820Go, optCount]
  | cons sg rest ih =>
      intro acc cur
      simp only [extract820Go]
      by_cases h1 : sg.tag = ("BPR")
      · rw [if_pos h1]
        cases cur <;>
          (simp [ih, optCount, List.filter_cons, h1]; omega)
      · rw [if_neg h1]
        by_cases h2 : sg.tag = ("RMR")
        · rw [if_pos h2]
          cases cur <;> simp [ih, optCount, List.filter_cons, h1]
        · rw [if_neg h2]
          simp [ih, List.filter_cons, h1]

theorem extract834Go_no_ins : ∀ (segs : List EDISegment) (acc : List Member),
    (∀ sg ∈ segs, sg.tag ≠ ("INS")) →
    extract834Go segs acc none = acc := by
  intro segs
  induction segs with
  | nil => intro acc _; simp [extract834Go]
  | cons sg rest ih =>
      intro acc h
      have hsg := h sg (List.mem_cons_self _ _)
      have hrest := fun x hx => h x (List.mem_cons_of_mem _ hx)
      simp only [extract834Go]
      rw [if_neg hsg]
      by_cases h2 : sg.tag = ("NM1")
      · rw [if_pos h2]; exact ih acc hrest
      · rw [if_neg h2]
        by_cases h3 : sg.tag = ("DMG")
        · rw [if_pos h3]; exact ih acc hrest
        · rw [if_neg h3]
          by_cases h4 : sg.tag = ("HD")
          · rw [if_pos h4]; exact ih acc hrest
          · rw [if_neg h4]; exact ih acc hrest

theorem extract820Go_no_bpr : ∀ (segs : List EDISegment) (acc : List Payment),
    (∀ sg ∈ segs, sg.tag ≠ ("BPR")) →
    extract820Go segs acc none = acc := by
  intro segs
  induction segs with
  | nil => intro acc _; simp [extract820Go]
  | cons sg rest ih =>
      intro acc h
      have hsg := h sg (List.mem_cons_self _ _)
      have hrest := fun x hx => h x (List.mem_cons_of_mem _ hx)
      simp only [extract820Go]
      rw [if_neg hsg]
      by_cases h2 : sg.tag = ("RMR")
      · rw [if_pos h2]; exact ih acc hrest
      · rw [if_neg h2]; exact ih acc hrest

end universalEDIParser

theorem jsParseFloat_zero : jsParseFloat ("0") = JSNum.num 0 := by decide

namespace universalEDIParser

/-- All monetary fields of a payment are the number zero. -/
def PaymentZeroAmounts (p : Payment) : Prop :=
  p.monetaryAmount = JSNum.num 0 ∧
  ∀ r ∈ p.remittanceDetails,
    r.remittanceAmount = JSNum.num 0 ∧ r.adjustmentAmount = JSNum.num 0

/-- An optionally-present element that is undefined or empty. -/
def ElementBlank (v : Option String) : Prop :=
  v = none ∨ v = some ("")

instance (v : Option String) : Decidable (ElementBlank v) := by
  unfold ElementBlank
  infer_instance

theorem jsOr_blank (v : Option String) (d : String) (h : ElementBlank v) :
    jsOr v d = d := by
  rcases h with h | h <;> simp [jsOr, h]

theorem newPayment_zero (e : List String) (h : ElementBlank (e.get? 2)) :
    PaymentZeroAmounts (newPayment e) := by
  constructor
  · show jsParseFloat (jsOr (e.get? 2) ("0")) = JSNum.num 0
    rw [jsOr_blank _ _ h, jsParseFloat_zero]
  · intro r hr
    simp [newPayment] at hr

theorem newRemittance_zero (e : List String)
    (h3 : ElementBlank (e.get? 3)) (h4 : ElementBlank (e.get? 4)) :
    (newRemittance e).remittanceAmount = JSNum.num 0 ∧
    (newRemittance e).adjustmentAmount = JSNum.num 0 := by
  constructor
  · show jsParseFloat (jsOr (e.get? 3) ("0")) = JSNum.num 0
    rw [jsOr_blank _ _ h3, jsParseFloat_zero]
  · show jsParseFloat (jsOr (e.get? 4) ("0")) = JSNum.num 0
    rw [jsOr_blank _ _ h4, jsParseFloat_zero]

theorem extract820Go_zero : ∀ (segs : List EDISegment) (acc : List Payment) (cur : Option Payment),
    (∀ sg ∈ segs, sg.tag = ("BPR") → ElementBlank (sg.elements.get? 2)) →
    (∀ sg ∈ segs, sg.tag = ("RMR") →
      ElementBlank (sg.elements.get? 3) ∧ ElementBlank (sg.elements.get? 4)) →
    (∀ p ∈ acc, PaymentZeroAmounts p) →
    (∀ p, cur = some p → PaymentZeroAmounts p) →
    ∀ p ∈ extract820Go segs acc cur, PaymentZeroAmounts p := by
  intro segs
  induction segs with
  | nil =>
      intro acc cur _ _ hacc hcur p hp
      cases cur with
      | none => exact hacc p hp
      | some q =>
          simp only [extract820Go] at hp
          rcases List.mem_append.mp hp with h | h
          · exact hacc p h
          · rw [List.mem_singleton.mp h]
            exact hcur q rfl
  | cons sg rest ih =>
      intro acc cur hBPR hRMR hacc hcur p hp
      have hBPRsg := hBPR sg (List.mem_cons_self _ _)
      have hRMRsg := hRMR sg (List.mem_cons_self _ _)
      have hBPRrest := fun x hx => hBPR x (List.mem_cons_of_mem _ hx)
      have hRMRrest := fun x hx => hRMR x (List.mem_cons_of_mem _ hx)
      simp only [extract820Go] at hp
      by_cases h1 : sg.tag = ("BPR")
      · rw [if_pos h1] at hp
        cases cur with
        | none =>
            exact ih acc _ hBPRrest hRMRrest hacc
              (fun q hq => by
                rw [Option.some.injEq] at hq
                rw [← hq]
                exact newPayment_zero _ (hBPRsg h1)) p hp
        | some q =>
            refine ih (acc ++ [q]) _ hBPRrest hRMRrest ?_
              (fun q2 hq2 => by
                rw [Option.some.injEq] at hq2
                rw [← hq2]
                exact newPayment_zero _ (hBPRsg h1)) p hp
            intro x hx
            rcases List.mem_append.mp hx with h | h
            · exact hacc x h
            · rw [List.mem_singleton.mp h]
              exact hcur q rfl
      · rw [if_neg h1] at hp
        by_cases h2 : sg.tag = ("RMR")
        · rw [if_pos h2] at hp
          cases cur with
          | none => exact ih acc none hBPRrest hRMRrest hacc (by simp) p hp
          | some q =>
              refine ih acc _ hBPRrest hRMRrest hacc
                (fun q2 hq2 => ?_) p hp
              rw [Option.some.injEq] at hq2
              rw [← hq2]
              have hq := hcur q rfl
              constructor
              · exact hq.1
              · intro r hr
                rcases List.mem_append.mp hr with h | h
                · exact hq.2 r h
                · rw [List.mem_singleton.mp h]
                  exact newRemittance_zero _ (hRMRsg h2).1 (hRMRsg h2).2
        · rw [if_neg h2] at hp
          exact ih acc cur hBPRrest hRMRrest hacc hcur p hp

end universalEDIParser

namespace ediParser

theorem legacy_mkSegment_elements (i : Nat) (s : String) :
    (mkSegment i s).elements = jsSplitOn legacyDelims s := rfl

theorem legacy_mkSegment_raw (i : Nat) (s : String) : (mkSegment i s).raw = s := rfl

theorem legacy_mkSegment_lineNumber (i : Nat) (s : String) :
    (mkSegment i s).lineNumber = i + 1 := rfl

theorem legacy_mkSegment_head_tag (i : Nat) (s : String) :
    (mkSegment i s).elements ≠ [] ∧
    (mkSegment i s).elements.head? = some (mkSegment i s).tag := by
  have h : jsSplitOn legacyDelims s ≠ [] := splitChars_ne_nil legacyDelims s.data
  obtain ⟨a, t, hE⟩ := List.exists_cons_of_ne_nil h
  constructor
  · rw [legacy_mkSegment_elements, hE]; simp
  · show (jsSplitOn legacyDelims s).head? = some (jsOr (jsSplitOn legacyDelims s).head? (""))
    rw [hE]
    simp [jsOr_some_empty]

end ediParser

namespace universalEDIParser

theorem mkSegment_head_tag (i : Nat) (s : String) :
    (mkSegment i s).elements ≠ [] ∧
    (mkSegment i s).elements.head? = some (mkSegment i s).tag := by
  have h : jsSplitOn universalDelims s ≠ [] := splitChars_ne_nil universalDelims s.data
  obtain ⟨a, t, hE⟩ := List.exists_cons_of_ne_nil h
  constructor
  · rw [mkSegment_elements, hE]; simp
  · show (jsSplitOn universalDelims s).head? = some (jsOr (jsSplitOn universalDelims s).head? (""))
    rw [hE]
    simp [jsOr_some_empty]

end universalEDIParser

/-! Claim theorems. -/

set_option maxRecDepth 2000000

/-- Mapping over an enumerated list, read at an index. -/
theorem enum_map_get? {α β : Type} (f : Nat × α → β) (l : List α) (i : Nat) :
    ((l.enum.map f).get? i) = (l.get? i).map (fun a => f (i, a)) := by
  rw [List.get?_map, show l.enum = List.enumFrom 0 l from rfl, enumFrom_get?]
  cases l.get? i <;> simp

/-- C1 counterexample: for the line ISA*00 the universal tokenizer yields
tag ISA and elements [ISA, 00], so the list [tag, elements...] is
[ISA, ISA, 00], which is not the raw line split by the delimiter class;
and the tag-only line ISA yields elements [ISA], not the empty list. -/
theorem C1_counterexample :
    (((universalEDIParser.parseEDIContent ("ISA*00")).segments.map
        (fun s => s.tag :: s.elements)) ≠
      [jsSplitOn universalDelims ("ISA*00")]) ∧
    (((universalEDIParser.parseEDIContent ("ISA")).segments.map
        (fun s => s.elements)) = [[("ISA")]]) := by
  constructor
  · decide
  · decide

/-- C1 amended: for every Segment either tokenizer produces, the elements
sequence is itself exactly the raw line split by the delimiter class (so
the tag is elements head, not excluded from it), with empty-string
placeholders preserved by the split; a tag-only line yields the singleton
element list holding the tag. -/
theorem C1_elements_are_split (content : String) :
    (∀ sg ∈ (universalEDIParser.parseEDIContent content).segments,
       sg.elements = jsSplitOn universalDelims sg.raw) ∧
    (∀ sg ∈ (ediParser.parseEDIContent content).segments,
       sg.elements = jsSplitOn legacyDelims sg.raw) := by
  constructor
  · intro sg hsg
    rw [universalEDIParser.parseEDIContent_segments] at hsg
    obtain ⟨p, _, rfl⟩ := List.mem_map.mp hsg
    rfl
  · intro sg hsg
    rw [ediParser.legacy_parse_segments] at hsg
    obtain ⟨p, _, rfl⟩ := List.mem_map.mp hsg
    rfl

/-- C1 witness: the amended claim at the input ISA*00. -/
theorem C1_witness :
    ((universalEDIParser.parseEDIContent ("ISA*00")).segments.getD 0 default ∈
      (universalEDIParser.parseEDIContent ("ISA*00")).segments) ∧
    ((universalEDIParser.parseEDIContent ("ISA*00")).segments.getD 0 default).elements =
      jsSplitOn universalDelims
        ((universalEDIParser.parseEDIContent ("ISA*00")).segments.getD 0 default).raw := by
  refine ⟨by decide, ?_⟩
  exact (C1_elements_are_split ("ISA*00")).1 _ (by decide)

/-- C7: tokenization is total (both tokenizers are plain functions) and
the number of produced segments equals the number of lines whose trimmed
form is nonempty, for every input string. -/
theorem C7_tokenization_length (content : String) :
    (universalEDIParser.parseEDIContent content).segments.length =
      ((jsSplitLines content).filter (fun l => jsTrim l ≠ (""))).length ∧
    (ediParser.parseEDIContent content).segments.length =
      ((jsSplitLines content).filter (fun l => jsTrim l ≠ (""))).length := by
  constructor
  · rw [universalEDIParser.parseEDIContent_segments]
    simp [List.enum_length]
  · rw [ediParser.legacy_parse_segments]
    simp [List.enum_length]

/-- C9 counterexample: for the input with a blank second line, the
segment tokenized from the third unfiltered line (raw B*2) carries
lineNumber 2, its position among the retained lines, not 3, its 1-based
index in the unfiltered line list. -/
theorem C9_counterexample :
    (((universalEDIParser.parseEDIContent ("A*1\n\nB*2")).segments.map
        (fun s => (s.raw, s.lineNumber))) = [(("A*1"), 1), (("B*2"), 2)]) ∧
    ((jsSplitLines ("A*1\n\nB*2")).get? 1 = some ("")) ∧
    ((jsSplitLines ("A*1\n\nB*2")).get? 2 = some ("B*2")) := by
  refine ⟨by decide, by decide, by decide⟩

/-- C9 amended: for both tokenizers, the segment stored at position i of
the produced segment list carries lineNumber i plus one - the 1-based
position among the retained non-blank lines, not the index in the
unfiltered line list. -/
theorem C9_lineNumber_filtered_index (content : String) (i : Nat) :
    (∀ sg, (universalEDIParser.parseEDIContent content).segments.get? i = some sg →
       sg.lineNumber = i + 1) ∧
    (∀ sg, (ediParser.parseEDIContent content).segments.get? i = some sg →
       sg.lineNumber = i + 1) := by
  constructor
  · intro sg h
    rw [universalEDIParser.parseEDIContent_segments, enum_map_get?] at h
    cases hF : ((jsSplitLines content).filter (fun l => jsTrim l ≠ (""))).get? i with
    | none => rw [hF] at h; simp at h
    | some l =>
        rw [hF] at h
        simp only [Option.map_some'] at h
        have h2 := Option.some.inj h
        rw [← h2]
        rfl
  · intro sg h
    rw [ediParser.legacy_parse_segments, enum_map_get?] at h
    cases hF : ((jsSplitLines content).filter (fun l => jsTrim l ≠ (""))).get? i with
    | none => rw [hF] at h; simp at h
    | some l =>
        rw [hF] at h
        simp only [Option.map_some'] at h
        have h2 := Option.some.inj h
        rw [← h2]
        rfl

/-- C9 witness: the amended claim at the blank-line input, position 1. -/
theorem C9_witness :
    ((universalEDIParser.parseEDIContent ("A*1\n\nB*2")).segments.get? 1 =
      some ((universalEDIParser.parseEDIContent ("A*1\n\nB*2")).segments.getD 1 default)) ∧
    ((universalEDIParser.parseEDIContent ("A*1\n\nB*2")).segments.getD 1 default).lineNumber = 2 := by
  refine ⟨by decide, ?_⟩
  exact (C9_lineNumber_filtered_index ("A*1\n\nB*2") 1).1 _ (by decide)

/-- C10: for every Segment either tokenizer produces, elements is
nonempty and its head equals the tag - the tag token is duplicated at the
head of elements, giving the tag-inclusive positional indexing that the
downstream reads (ISA element 13, IEA element 2, BPR element 2, NM1
element 1) rely on. -/
theorem C10_elements_head_is_tag (content : String) :
    (∀ sg ∈ (universalEDIParser.parseEDIContent content).segments,
       sg.elements ≠ [] ∧ sg.elements.head? = some sg.tag) ∧
    (∀ sg ∈ (ediParser.parseEDIContent content).segments,
       sg.elements ≠ [] ∧ sg.elements.head? = some sg.tag) := by
  constructor
  · intro sg hsg
    rw [universalEDIParser.parseEDIContent_segments] at hsg
    obtain ⟨p, _, rfl⟩ := List.mem_map.mp hsg
    exact universalEDIParser.mkSegment_head_tag p.1 (jsTrim p.2)
  · intro sg hsg
    rw [ediParser.legacy_parse_segments] at hsg
    obtain ⟨p, _, rfl⟩ := List.mem_map.mp hsg
    exact ediParser.legacy_mkSegment_head_tag p.1 (jsTrim p.2)

/-- C10 witness: the invariant at the input ISA*00. -/
theorem C10_witness :
    ((universalEDIParser.parseEDIContent ("ISA*00")).segments.getD 0 default ∈
      (universalEDIParser.parseEDIContent ("ISA*00")).segments) ∧
    (((universalEDIParser.parseEDIContent ("ISA*00")).segments.getD 0 default).elements ≠ [] ∧
     ((universalEDIParser.parseEDIContent ("ISA*00")).segments.getD 0 default).elements.head? =
       some ((universalEDIParser.parseEDIContent ("ISA*00")).segments.getD 0 default).tag) := by
  refine ⟨by decide, ?_⟩
  exact (C10_elements_head_is_tag ("ISA*00")).1 _ (by decide)

/-- The two-line sample interchange of the specification: an ISA header
followed by an IEA trailer with matching control numbers. -/
def sampleInterchange : String :=
  ("ISA*00*          *00*          *ZZ*SENDER*ZZ*RECEIVER*250930*1200*^*00501*000000001*0*P*:\nIEA*1*000000001")

/-- C2 counterexample: on the sample two-line interchange the
required-segment check does report missing segments (six of them, from
the 820 required list used for the unknown type), so the final validation
verdict is invalid - not valid as claimed. -/
theorem C2_counterexample :
    ((ediValidator.validateEDITransaction
        (ediParser.parseEDIContent sampleInterchange)).isValid = false) ∧
    ((ediValidator.validateRequiredSegments
        (ediParser.parseEDIContent sampleInterchange)).length = 6) := by
  refine ⟨by decide, by decide⟩

/-- C2 amended: on the sample two-line interchange, format detection
returns unknown (for both detectors), the envelope check reports no
issue, the control-number check reports no mismatch, but the
required-segment check - which uses the 820 required list for the
unknown type - reports the six critical missing-segment issues GS, ST,
BPR, N1, SE, GE, and the final validation result has isValid false. -/
theorem C2_sample_validation :
    (ediParser.detectEDIType sampleInterchange = ("unknown")) ∧
    (universalEDIParser.detectEDIFormat sampleInterchange = ("unknown")) ∧
    (ediValidator.validateSegmentSequence
      (ediParser.parseEDIContent sampleInterchange) = []) ∧
    (ediValidator.validateControlNumbers
      (ediParser.parseEDIContent sampleInterchange) = []) ∧
    ((ediValidator.validateRequiredSegments
        (ediParser.parseEDIContent sampleInterchange)).map (fun e => e.id) =
      [("missing-GS"), ("missing-ST"), ("missing-BPR"), ("missing-N1"),
       ("missing-SE"), ("missing-GE")]) ∧
    ((ediValidator.validateRequiredSegments
        (ediParser.parseEDIContent sampleInterchange)).all
      (fun e => e.type = ("critical")) = true) ∧
    ((ediValidator.validateEDITransaction
        (ediParser.parseEDIContent sampleInterchange)).isValid = false) := by
  refine ⟨by decide, by decide, by decide, by decide, by decide, by decide, by decide⟩

/-- C3 counterexample: a transaction of detected type unknown holding
only the tag AAA receives eight critical missing-segment issues (the
whole 820 required list), not zero. -/
theorem C3_counterexample :
    ((ediParser.parseEDIContent ("AAA*1")).type = ("unknown")) ∧
    ((ediValidator.validateRequiredSegments
        (ediParser.parseEDIContent ("AAA*1"))).map (fun e => e.id) =
      [("missing-ISA"), ("missing-GS"), ("missing-ST"), ("missing-BPR"),
       ("missing-N1"), ("missing-SE"), ("missing-GE"), ("missing-IEA")]) ∧
    ((ediValidator.validateRequiredSegments
        (ediParser.parseEDIContent ("AAA*1"))).all
      (fun e => e.type = ("critical")) = true) := by
  refine ⟨by decide, by decide, by decide⟩

/-- C3 amended: for every transaction whose type is unknown the
required-segment pass uses the 820 required list, not an empty one: it
reports no missing-segment issue exactly when every tag of the 820
required list is present, and each reported issue is critical. -/
theorem C3_unknown_uses_820_list (transaction : ediParser.EDITransaction)
    (h : transaction.type = ("unknown")) :
    ((ediValidator.validateRequiredSegments transaction = []) ↔
      (∀ r ∈ ediValidator.REQUIRED_820_SEGMENTS,
        r ∈ transaction.segments.map (fun s => s.tag))) ∧
    (∀ e ∈ ediValidator.validateRequiredSegments transaction,
      e.type = ("critical")) := by
  have h834 : ¬ transaction.type = ("834") := by rw [h]; decide
  constructor
  · unfold ediValidator.validateRequiredSegments
    rw [if_neg h834]
    rw [List.filterMap_eq_nil]
    constructor
    · intro hall r hr
      have := hall r hr
      by_contra hmem
      rw [if_neg hmem] at this
      simp at this
    · intro hall r hr
      rw [if_pos (hall r hr)]
  · intro e he
    unfold ediValidator.validateRequiredSegments at he
    rw [if_neg h834] at he
    obtain ⟨r, _, hre⟩ := List.mem_filterMap.mp he
    by_cases hmem : r ∈ transaction.segments.map (fun s => s.tag)
    · rw [if_pos hmem] at hre; simp at hre
    · rw [if_neg hmem] at hre
      have := Option.some.inj hre
      rw [← this]

/-- C3 witness: the amended claim at the single-segment transaction AAA. -/
theorem C3_witness :
    ((ediParser.parseEDIContent ("AAA*1")).type = ("unknown")) ∧
    (((ediValidator.validateRequiredSegments (ediParser.parseEDIContent ("AAA*1"))) = []) ↔
      (∀ r ∈ ediValidator.REQUIRED_820_SEGMENTS,
        r ∈ (ediParser.parseEDIContent ("AAA*1")).segments.map (fun s => s.tag))) := by
  refine ⟨by decide, ?_⟩
  exact (C3_unknown_uses_820_list _ (by decide)).1

/-- C5 counterexample: running the 834 member extractor on the segments
of a transaction whose declared type is 820 does not raise - it returns
normally with the empty member list (the extractor never inspects the
declared type, and no function in the parsing, detection, validation or
extraction core raises). -/
theorem C5_counterexample :
    ((universalEDIParser.parseEDIContent ("ST*820*0001\nBPR*C*100*C*ACH")).type = ("820")) ∧
    (universalEDIParser.extract834Members
      (universalEDIParser.parseEDIContent ("ST*820*0001\nBPR*C*100*C*ACH")).segments = []) := by
  refine ⟨by decide, by decide⟩

/-- C5 amended: the type-specific extractors perform no declared-type
check and never raise: invoked on a segment stream of another format they
return normally, yielding one entity per occurrence of their start tag -
in particular the empty list when the stream has no INS (respectively no
BPR) segment. -/
theorem C5_extractors_never_raise (segments : List universalEDIParser.EDISegment) :
    ((∀ sg ∈ segments, sg.tag ≠ ("INS")) →
      universalEDIParser.extract834Members segments = []) ∧
    ((∀ sg ∈ segments, sg.tag ≠ ("BPR")) →
      universalEDIParser.extract820Payments segments = []) := by
  constructor
  · intro h
    exact universalEDIParser.extract834Go_no_ins segments [] h
  · intro h
    exact universalEDIParser.extract820Go_no_bpr segments [] h

/-- C5 witness: the amended claim on the declared-820 sample stream. -/
theorem C5_witness :
    (∀ sg ∈ (universalEDIParser.parseEDIContent ("ST*820*0001\nBPR*C*100*C*ACH")).segments,
       sg.tag ≠ ("INS")) ∧
    (universalEDIParser.extract834Members
      (universalEDIParser.parseEDIContent ("ST*820*0001\nBPR*C*100*C*ACH")).segments = []) := by
  refine ⟨by decide, ?_⟩
  exact (C5_extractors_never_raise _).1 (by decide)

/-- C6 counterexample: a BPR whose monetary-amount element is the
non-numeric string ABC extracts as NaN (JavaScript parseFloat), which is
not the number zero claimed. -/
theorem C6_counterexample :
    (((universalEDIParser.extract820Payments
        (universalEDIParser.parseEDIContent ("BPR*C*ABC*C*ACH")).segments).map
          (fun p => p.monetaryAmount)) = [JSNum.nan]) ∧
    (JSNum.nan ≠ JSNum.num 0) := by
  refine ⟨by decide, by decide⟩

/-- C6 amended: extraction never raises and completes for every entity
(one payment per BPR); a missing or empty amount element extracts as the
number zero (the non-numeric case extracts as NaN instead): when every
BPR amount element and every RMR amount element is missing or empty, all
extracted monetary amounts are zero. -/
theorem C6_blank_amounts_zero (segments : List universalEDIParser.EDISegment)
    (hBPR : ∀ sg ∈ segments, sg.tag = ("BPR") →
      universalEDIParser.ElementBlank (sg.elements.get? 2))
    (hRMR : ∀ sg ∈ segments, sg.tag = ("RMR") →
      universalEDIParser.ElementBlank (sg.elements.get? 3) ∧
      universalEDIParser.ElementBlank (sg.elements.get? 4)) :
    ((universalEDIParser.extract820Payments segments).length =
      (segments.filter (fun s => s.tag = ("BPR"))).length) ∧
    (∀ p ∈ universalEDIParser.extract820Payments segments,
      universalEDIParser.PaymentZeroAmounts p) := by
  constructor
  · show (universalEDIParser.extract820Go segments [] none).length = _
    rw [universalEDIParser.extract820Go_length]
    simp [optCount]
  · exact universalEDIParser.extract820Go_zero segments [] none hBPR hRMR
      (by simp) (by simp)

/-- C6 witness: the amended claim on a stream with an empty BPR amount
and an RMR with no amount elements at all. -/
theorem C6_witness :
    (∀ sg ∈ (universalEDIParser.parseEDIContent ("BPR*C**C*ACH\nRMR*PO*G")).segments,
       sg.tag = ("BPR") → universalEDIParser.ElementBlank (sg.elements.get? 2)) ∧
    (∀ sg ∈ (universalEDIParser.parseEDIContent ("BPR*C**C*ACH\nRMR*PO*G")).segments,
       sg.tag = ("RMR") →
         universalEDIParser.ElementBlank (sg.elements.get? 3) ∧
         universalEDIParser.ElementBlank (sg.elements.get? 4)) ∧
    ((universalEDIParser.extract820Payments
        (universalEDIParser.parseEDIContent ("BPR*C**C*ACH\nRMR*PO*G")).segments).length =
      ((universalEDIParser.parseEDIContent ("BPR*C**C*ACH\nRMR*PO*G")).segments.filter
        (fun s => s.tag = ("BPR"))).length) := by
  refine ⟨by decide, by decide, ?_⟩
  exact (C6_blank_amounts_zero _ (by decide) (by decide)).1

/-- C8: for every segment stream, 834 member extraction yields exactly
one member per INS segment and 820 payment extraction yields exactly one
payment per BPR segment; in particular a stream with no start tag yields
the empty entity list, and each entity is appended to the result exactly
once. -/
theorem C8_entity_count (segments : List universalEDIParser.EDISegment) :
    ((universalEDIParser.extract834Members segments).length =
      (segments.filter (fun s => s.tag = ("INS"))).length) ∧
    ((universalEDIParser.extract820Payments segments).length =
      (segments.filter (fun s => s.tag = ("BPR"))).length) := by
  constructor
  · show (universalEDIParser.extract834Go segments [] none).length = _
    rw [universalEDIParser.extract834Go_length]
    simp [optCount]
  · show (universalEDIParser.extract820Go segments [] none).length = _
    rw [universalEDIParser.extract820Go_length]
    simp [optCount]

/-- A complete single-member 834 interchange whose member carries the
subscriber id 12345 in element 9 of its NM1 segment. -/
def roundTrip834Input : String :=
  ("ISA*00*          *00*          *ZZ*SENDER         *ZZ*RECEIVER       *250930*1200*^*00501*000000001*0*P*:\nGS*BE*S*R*20250930*1200*1*X*005010X220A1\nST*834*0001\nBGN*00*REF*20250930*1200\nINS*Y*18*030*AI*A\nNM1*IL*1*DOE*JOHN****34*12345\nSE*6*0001\nGE*1*1\nIEA*1*000000001")

/-- The structured result extracted from the 834 round-trip input. -/
def roundTrip834Extracted : universalEDIParser.JSONConversionResult :=
  universalEDIParser.convertEDIToJSON
    (universalEDIParser.parseEDIContent roundTrip834Input)

/-- The structured result extracted from the reconstructed segment text
of the 834 round-trip input. -/
def roundTrip834Reextracted : universalEDIParser.JSONConversionResult :=
  universalEDIParser.convertEDIToJSON
    (universalEDIParser.parseEDIContent
      (universalEDIParser.convertJSONToEDI roundTrip834Extracted))

/-- C4: the 834 round trip preserves the member count but loses the
member id, a non-default field present in the original structured result:
the original extraction reads the id 12345 from NM1 element 9, while the
reconstruction emits the id at element position 8 (one asterisk short),
so re-extraction reads the empty trailing element instead.  The claimed
round-trip guarantee fails on the member id. -/
theorem C4_roundtrip_drops_member_id :
    ((universalEDIParser.parseEDIContent roundTrip834Input).type = ("834")) ∧
    (roundTrip834Extracted.data.members.map (fun m => m.name.map (fun n => n.id)) =
      [some (some ("12345"))]) ∧
    (roundTrip834Reextracted.data.members.length = 1) ∧
    (roundTrip834Reextracted.data.members.map (fun m => m.name.map (fun n => n.id)) =
      [some (some (""))]) ∧
    (roundTrip834Reextracted.data.members.map (fun m => m.name.map (fun n => n.idQualifier)) =
      [some (some ("12345"))]) := by
  refine ⟨by decide, by decide, by decide, by decide, by decide⟩
